import Mathlib

/-!
Verification development for the `artemis-mcp` CLI (`src/mcp_py/cli.py`),
a scaffolding and build tool for MCP server projects.

Modelling conventions, kept uniform across the file:

* Filesystem paths are `List String`, listing path components innermost
  first (the path `/home/proj/src` is `["src", "proj", "home"]` relative to
  an anchored root `[]`).  Under this representation the Python
  `current.parent` is `List.tail`, `current / "package.json"` is
  `"package.json" :: current`, and the filesystem-root fixed point
  `current.parent == current` is `current.tail = current`, which holds
  exactly for `current = []` (lemma `tail_eq_self_iff_nil` below).
* A filesystem is an existence predicate `List String → Bool` (for the
  upward search) or a content map `List String → Option String` (where
  file contents matter).
* Strings are Lean `String` or `List Char`; Python `str.capitalize`,
  `str.replace` (single character arguments) and `str.split` (single
  character separator) are embedded character-by-character below, with
  Python semantics (empty string splits to `[""]`, adjacent separators
  produce empty segments).  ASCII casing matches Python for the ASCII
  inputs this program handles.
* External subprocess invocations (tsc, npm, git) are recorded as
  argument-vector lists, not executed; reading the environment variable
  is a parameter `env : Option String`.
-/

/-! ## PathResolver: `find_package_json` (cli.py lines 8-16)

Python walks `current = start` upward: it checks `current / "package.json"`,
returns it if present, returns `None` once `current.parent == current`
(the filesystem root), else moves to the parent.  In the innermost-first
list representation the parent is `tail` and the root is `[]`. -/

def find_package_json (fs : List String → Bool) : List String → Option (List String)
  | [] =>
      if fs (("package.json") :: []) then some (("package.json") :: []) else none
  | d :: rest =>
      if fs (("package.json") :: d :: rest) then some (("package.json") :: d :: rest)
      else find_package_json fs rest

/-- The ancestor chain of a directory, the directory itself first, the
root `[]` last: exactly the directories the Python loop visits, in
visiting order. -/
def ancestors : List String → List (List String)
  | [] => [[]]
  | d :: rest => (d :: rest) :: ancestors rest

/-- The literal Python `while True` loop, with an explicit step budget
(`fuel`); `none` means the budget ran out before the loop returned. -/
def find_loop (fs : List String → Bool) : Nat → List String → Option (Option (List String))
  | 0, _ => none
  | _ + 1, [] =>
      if fs (("package.json") :: []) then some (some (("package.json") :: []))
      else some none
  | fuel + 1, d :: rest =>
      if fs (("package.json") :: d :: rest) then some (some (("package.json") :: d :: rest))
      else find_loop fs fuel rest

/-! ## NameTransformer: `to_pascal_case` (cli.py lines 160-161)

`''.join(word.capitalize() for word in value.replace('_', '-').split('-'))` -/

/-- Python `str.replace('_', '-')`, character-wise (both arguments are
single characters, so substring replacement is a character map). -/
def underscore_to_hyphen (c : Char) : Char :=
  if c = '_' then '-' else c

/-- Python `str.split(sep)` for a single-character separator:
`"".split('-') == [""]`, adjacent separators yield empty segments. -/
def pySplitChar (sep : Char) : List Char → List (List Char)
  | [] => [[]]
  | c :: cs =>
      if c = sep then [] :: pySplitChar sep cs
      else
        match pySplitChar sep cs with
        | [] => [[c]]
        | seg :: segs => (c :: seg) :: segs

/-- Python `str.capitalize()`: first character uppercased, every later
character lowercased; the empty string maps to itself. -/
def pyCapitalize : List Char → List Char
  | [] => []
  | c :: cs => c.toUpper :: cs.map Char.toLower

def pyCapitalizeStr (s : String) : String :=
  String.mk (pyCapitalize s.data)

def to_pascal_case_chars (value : List Char) : List Char :=
  (List.map pyCapitalize (pySplitChar '-' (value.map underscore_to_hyphen))).flatten

def to_pascal_case (value : String) : String :=
  String.mk (to_pascal_case_chars value.data)

/-- Spec-side description of the split: one pass over the string,
breaking at every character of the delimiter set \x7b hyphen, underscore \x7d.
Used to compare the source's replace-then-split against the spec's
words "split on a fixed delimiter set". -/
def splitOnDelimiterSet : List Char → List (List Char)
  | [] => [[]]
  | c :: cs =>
      if c = '-' ∨ c = '_' then [] :: splitOnDelimiterSet cs
      else
        match splitOnDelimiterSet cs with
        | [] => [[c]]
        | seg :: segs => (c :: seg) :: segs

/-! ## BuildOrchestrator: `build_framework` (cli.py lines 19-49) -/

/-- `os.environ.get("MCP_SKIP_VALIDATION") == "true"` (cli.py line 30):
an unset variable (`none`) compares unequal, as does any string other
than exactly `"true"`. -/
def skip_validation (env : Option String) : Bool :=
  env == some ("true")

def not_found_msg : String :=
  "Could not find package.json in current directory or any parent directories"

def invalid_project_msg : String :=
  "This directory is not an MCP project (mcp-framework not found in dependencies)"

/-- The shebang line prepended by the post-compile patch (cli.py line 44). -/
def shebang : List Char := ("#!/usr/bin/env node\n").data

/-- Patch of one existing file content (cli.py lines 46-48): prepend the
shebang unless the content already starts with it. -/
def patchContent (content : List Char) : List Char :=
  if shebang.isPrefixOf content then content else shebang ++ content

/-- The whole post-compile patch step (cli.py lines 45-48): `none` models
an absent `dist/index.js`, for which the step is a silent no-op. -/
def patchStep : Option (List Char) → Option (List Char)
  | none => none
  | some content => some (patchContent content)

/-- `build_framework` (cli.py lines 19-49) over the model state: `fs` is
the existence predicate driving the upward search from `cwd`; `deps` is
the key set of the manifest's `dependencies` mapping (`pkg.get
("dependencies", \x7b\x7d)`); `env` is the value of `MCP_SKIP_VALIDATION`;
`distIndex` is the content of `dist/index.js` after the external `tsc`
run (`none` if absent).  The returned value is the patched
`dist/index.js` content; reaching `Except.ok` models passing the gate
and proceeding to the compile and patch steps. -/
def build_framework (fs : List String → Bool) (deps : List String)
    (env : Option String) (distIndex : Option (List Char)) (cwd : List String) :
    Except String (Option (List Char)) :=
  match find_package_json fs cwd with
  | none => .error not_found_msg
  | some _ =>
      if skip_validation env then .ok (patchStep distIndex)
      else if deps.contains ("mcp-framework") then .ok (patchStep distIndex)
      else .error invalid_project_msg

/-! ## TemplateLibrary and ProjectGenerator: `create_project` (cli.py lines 52-157) -/

/-- The `package.json` written by `create_project` (cli.py lines 71-86),
kept as a structured record; JSON serialization is opaque here.
Mapping-valued JSON fields are association lists in source order. -/
structure PackageJson where
  name : String
  version : String
  description : String
  bin : List (String × String)
  files : List String
  scripts : List (String × String)
  dependencies : List (String × String)
  devDependencies : List (String × String)
  engines : List (String × String)
deriving DecidableEq

def mk_package_json (name : String) : PackageJson :=
  ⟨name,
   ("0.0.1"),
   name ++ (" MCP server"),
   [(name, ("./dist/index.js"))],
   [("dist")],
   [(("build"), ("tsc && mcp-build")), (("watch"), ("tsc --watch")), (("start"), ("node dist/index.js"))],
   [(("mcp-framework"), ("^0.2.2"))],
   [(("@types/node"), ("^20.11.24")), (("typescript"), ("^5.3.3"))],
   [(("node"), (">=18.19.0"))]⟩

/-- The `tsconfig.json` written by `create_project` (cli.py lines 88-102);
`module_` stands for the JSON key `module`, `includeGlobs` and
`excludeGlobs` for the keys `include` and `exclude`. -/
structure TsConfig where
  target : String
  module_ : String
  moduleResolution : String
  outDir : String
  rootDir : String
  strict : Bool
  esModuleInterop : Bool
  skipLibCheck : Bool
  forceConsistentCasingInFileNames : Bool
  includeGlobs : List String
  excludeGlobs : List String
deriving DecidableEq

def mk_tsconfig : TsConfig :=
  ⟨("ESNext"), ("ESNext"), ("node"), ("./dist"), ("./src"),
   true, true, true, true, [("src/**/*")], [("node_modules")]⟩

/-- The transport block of the entry point (cli.py lines 105-108):
built only when http is requested; the CORS block is appended inside
the `options` object when cors is requested. -/
def transport_config (port : Nat) (cors : Bool) : String :=
  ("\n  transport: \x7b\n    type: \x27http-stream\x27,\n    options: \x7b\n      port: ")
    ++ toString port
    ++ (if cors then (",\n      cors: \x7b\n        allowOrigin: \x27*\x27\n      \x7d") else (""))
    ++ ("\n    \x7d\n  \x7d")

/-- `src/index.ts` content (cli.py lines 104-111). -/
def index_ts_content (http cors : Bool) (port : Nat) : String :=
  if http then
    ("import \x7b MCPServer \x7d from \x27mcp-framework\x27;\n\nconst server = new MCPServer(\x7b")
      ++ transport_config port cors
      ++ ("\x7d);\n\nserver.start();\n")
  else
    ("import \x7b MCPServer \x7d from \x27mcp-framework\x27;\n\nconst server = new MCPServer();\n\nserver.start();\n")

/-- The example tool stub (cli.py lines 121-139).  In the Python source
this is a plain (non-f) string, so the text `$\x7binput.message\x7d` is
emitted literally into the generated TypeScript. -/
def example_tool_text : String :=
  ("import \x7b MCPTool \x7d from \x27mcp-framework\x27;\nimport \x7b z \x7d from \x27zod\x27;\n\ninterface ExampleInput \x7b\n  message: string;\n\x7d\n\nclass ExampleTool extends MCPTool<ExampleInput> \x7b\n  name = \x27example_tool\x27;\n  description = \x27An example tool that processes messages\x27;\n\n  schema = \x7b\n    message: \x7b\n      type: z.string(),\n      description: \x27Message to process\x27\n    \x7d\n  \x7d;\n\n  async execute(input: ExampleInput) \x7b\n    return \x60Processed: $\x7binput.message\x7d\x60;\n  \x7d\n\x7d\n\nexport default ExampleTool;\n")

/-- The outcome of `create_project` (cli.py lines 52-157): the directory
tree it creates, the rendered file contents, and the argument vectors of
the external processes it invokes, in order.  Paths are innermost-first
relative to the starting working directory.  Interactive name
solicitation is the CLI layer's concern and is outside this model; the
emptiness check on the resulting name is kept. -/
structure CreateResult where
  dirs : List (List String)
  package_json : PackageJson
  tsconfig : TsConfig
  readme : String
  index_ts : String
  example_tool : Option String
  commands : List (List String)
deriving DecidableEq

def create_project (name : String) (http cors : Bool) (port : Nat)
    (install withExample : Bool) : Except String CreateResult :=
  if name = ("") then .error ("Project name is required")
  else
    .ok ⟨[[name], [("src"), name], [("tools"), ("src"), name],
          [("prompts"), ("src"), name], [("resources"), ("src"), name]],
         mk_package_json name,
         mk_tsconfig,
         ("# ") ++ name ++ ("\n\nCreated with mcp-framework"),
         index_ts_content http cors port,
         (if withExample then some example_tool_text else none),
         ([[("git"), ("init")]]
           ++ (if install then [[("npm"), ("install")], [("npx"), ("tsc")], [("npx"), ("mcp-build")]]
               else []))⟩

/-! ## ComponentGenerator: `add_component` (cli.py lines 164-189)

The `content_map` dict literal (cli.py lines 180-184) is evaluated
eagerly: all three template f-strings are rendered before the requested
kind is looked up.  The tool template (line 181) contains
`$\x7binput.message\x7d` with single braces, so Python treats
`input.message` as an interpolation expression; `input` there is the
Python builtin input function, which has no attribute `message`, and the
rendering raises `AttributeError`.  The model keeps that evaluation
explicit. -/

def attribute_error_msg : String :=
  ("AttributeError: \x27builtin_function_or_method\x27 object has no attribute \x27message\x27")

/-- Evaluation of the f-string interpolation expression `input.message`
at cli.py line 181: attribute lookup on the builtin fails. -/
def input_message_interpolation : Except String String :=
  .error attribute_error_msg

inductive ComponentKind
  | tool
  | prompt
  | resource
deriving DecidableEq

def ComponentKind.str : ComponentKind → String
  | .tool => ("tool")
  | .prompt => ("prompt")
  | .resource => ("resource")

/-- The tool template f-string (cli.py line 181): literal fragments
interleaved with the interpolations `class_name`, `name` and the failing
`input.message`. -/
def render_tool_template (class_name name : String) : Except String String := do
  let im ← input_message_interpolation
  pure (("import \x7b MCPTool \x7d from \x27mcp-framework\x27;\nimport \x7b z \x7d from \x27zod\x27;\n\ninterface ")
    ++ class_name ++ ("Input \x7b\n  message: string;\n\x7d\n\nclass ")
    ++ class_name ++ ("Tool extends MCPTool<") ++ class_name ++ ("Input> \x7b\n  name = \x27")
    ++ name ++ ("\x27;\n  description = \x27") ++ class_name
    ++ (" tool description\x27;\n\n  schema = \x7b\n    message: \x7b\n      type: z.string(),\n      description: \x27Message to process\x27\n    \x7d\n  \x7d;\n\n  async execute(input: ")
    ++ class_name ++ ("Input) \x7b\n    return \x60Processed: $") ++ im
    ++ ("\x60;\n  \x7d\n\x7d\n\nexport default ") ++ class_name ++ ("Tool;\n"))

/-- The prompt template f-string (cli.py line 182); all its braces are
escaped in the source, so it renders without failure. -/
def render_prompt_template (class_name name : String) : String :=
  ("import \x7b MCPPrompt \x7d from \x27mcp-framework\x27;\nimport \x7b z \x7d from \x27zod\x27;\n\ninterface ")
    ++ class_name ++ ("Input \x7b\n  message: string;\n\x7d\n\nclass ")
    ++ class_name ++ ("Prompt extends MCPPrompt<") ++ class_name ++ ("Input> \x7b\n  name = \x27")
    ++ name ++ ("\x27;\n  description = \x27") ++ class_name
    ++ (" prompt description\x27;\n\n  schema = \x7b\n    message: \x7b\n      type: z.string(),\n      description: \x27Message to process\x27,\n      required: true\n    \x7d\n  \x7d;\n\n  async generateMessages(\x7b message \x7d: ")
    ++ class_name ++ ("Input) \x7b\n    return [\x7b role: \x27user\x27, content: \x7b type: \x27text\x27, text: message \x7d \x7d];\n  \x7d\n\x7d\n\nexport default ")
    ++ class_name ++ ("Prompt;\n")

/-- The resource template f-string (cli.py line 183); all its braces are
escaped in the source, so it renders without failure. -/
def render_resource_template (class_name name : String) : String :=
  ("import \x7b MCPResource, ResourceContent \x7d from \x27mcp-framework\x27;\n\nclass ")
    ++ class_name ++ ("Resource extends MCPResource \x7b\n  uri = \x27resource://")
    ++ name ++ ("\x27;\n  name = \x27") ++ class_name ++ ("\x27;\n  description = \x27")
    ++ class_name
    ++ (" resource description\x27;\n  mimeType = \x27application/json\x27;\n\n  async read(): Promise<ResourceContent[]> \x7b\n    return [\x7b uri: this.uri, mimeType: this.mimeType, text: JSON.stringify(\x7b message: \x27Hello from ")
    ++ class_name ++ (" resource\x27 \x7d) \x7d];\n  \x7d\n\x7d\n\nexport default ")
    ++ class_name ++ ("Resource;\n")

/-- The `content_map` dict literal (cli.py lines 180-184), with Python's
eager evaluation of every value: the tool entry is rendered first and
its failure aborts the whole construction, whatever kind was asked for. -/
def content_map (class_name name : String) : Except String (ComponentKind → String) := do
  let toolText ← render_tool_template class_name name
  pure (fun k =>
    match k with
    | .tool => toolText
    | .prompt => render_prompt_template class_name name
    | .resource => render_resource_template class_name name)

/-- The `dir_map` dict (cli.py lines 175-179): per-kind target directory
`Path.cwd() / \x27src/<kind>s\x27` — relative to the current working
directory, not to the directory where the upward search found the
manifest. -/
def dir_map (cwd : List String) : ComponentKind → List String
  | .tool => ("tools") :: ("src") :: cwd
  | .prompt => ("prompts") :: ("src") :: cwd
  | .resource => ("resources") :: ("src") :: cwd

/-- `file_name = f"\x7bclass_name\x7d\x7bkind.capitalize()\x7d.ts"` (cli.py line 174). -/
def component_file_name (name : String) (kind : ComponentKind) : String :=
  to_pascal_case name ++ pyCapitalizeStr kind.str ++ (".ts")

/-- `add_component` (cli.py lines 164-189) over a content-mapped
filesystem: on success the result is the updated filesystem paired with
the path written.  Interactive name solicitation is external; the
emptiness check is kept. -/
def add_component (files : List String → Option String) (cwd : List String)
    (name : String) (kind : ComponentKind) :
    Except String ((List String → Option String) × List String) :=
  match find_package_json (fun p => (files p).isSome) cwd with
  | none => .error ("Must be run from an MCP project directory")
  | some _ =>
      if name = ("") then .error (pyCapitalizeStr kind.str ++ (" name is required"))
      else
        let class_name := to_pascal_case name
        let file_name := component_file_name name kind
        let target_dir := dir_map cwd kind
        match content_map class_name name with
        | .error e => .error e
        | .ok cm =>
            let file_path := file_name :: target_dir
            .ok ((fun p => if p = file_path then some (cm kind) else files p), file_path)

/-! ## Concrete inputs used by the theorems below -/

/-- Substring occurrence check used to state content properties:
`occursIn needle hay` holds when `needle` appears contiguously in
`hay`. -/
def occursIn (needle : List Char) : List Char → Bool
  | [] => needle.isEmpty
  | c :: cs => needle.isPrefixOf (c :: cs) || occursIn needle cs

/-- `src/index.ts` as the spec's end-to-end test expects it for
`create("demo", http=True, cors=True, port=9090, install=False)`,
written out literally for an independent comparison. -/
def demo_index_ts : String :=
  ("import \x7b MCPServer \x7d from \x27mcp-framework\x27;\n\nconst server = new MCPServer(\x7b\n  transport: \x7b\n    type: \x27http-stream\x27,\n    options: \x7b\n      port: 9090,\n      cors: \x7b\n        allowOrigin: \x27*\x27\n      \x7d\n    \x7d\n  \x7d\x7d);\n\nserver.start();\n")

/-- A minimal project filesystem: an empty-object manifest at the
current working directory, nothing else. -/
def demo_project_files : List String → Option String :=
  fun p => if p = [("package.json")] then some ("\x7b\x7d") else none

/-- A project filesystem that additionally holds a hand-edited file at
the exact path `add_component` would target for a resource named
`status`: `src/resources/StatusResource.ts`. -/
def demo_project_files_with_existing : List String → Option String :=
  fun p =>
    if p = [("StatusResource.ts"), ("resources"), ("src")] then some ("hand edited content")
    else if p = [("package.json")] then some ("\x7b\x7d") else none

/-! ## Helper lemmas -/

/-- The Python loop guard `current.parent == current` is, in this
representation, `current.tail = current`, and it holds exactly at the
root `[]`. -/
lemma tail_eq_self_iff_nil (current : List String) :
    current.tail = current ↔ current = [] := by
  constructor
  · intro h
    cases current with
    | nil => rfl
    | cons d rest =>
        exfalso
        have hlen := congrArg List.length h
        simp at hlen
  · intro h
    subst h
    rfl

lemma isPrefixOf_append_self (l xs : List Char) : l.isPrefixOf (l ++ xs) = true := by
  simp

lemma find_eq_ancestors_find? (fs : List String → Bool) (start : List String) :
    find_package_json fs start
      = (List.find? (fun d => fs (("package.json") :: d)) (ancestors start)).map
          (fun d => ("package.json") :: d) := by
  induction start with
  | nil =>
      by_cases h : fs (("package.json") :: [])
      · simp [find_package_json, ancestors, List.find?, h]
      · simp [find_package_json, ancestors, List.find?, h]
  | cons d rest ih =>
      by_cases h : fs (("package.json") :: d :: rest)
      · simp [find_package_json, ancestors, List.find?, h]
      · simp [find_package_json, ancestors, List.find?, h, ih]

lemma find_at_top (fs : List String → Bool) (top : List String)
    (h : fs (("package.json") :: top) = true) :
    find_package_json fs top = some (("package.json") :: top) := by
  cases top with
  | nil => simp [find_package_json, h]
  | cons d rest => simp [find_package_json, h]

lemma find_descendant (top rest : List String) (fs : List String → Bool)
    (huniq : ∀ p, fs p = true ↔ p = ("package.json") :: top) :
    find_package_json fs (rest ++ top) = some (("package.json") :: top) := by
  induction rest with
  | nil =>
      exact find_at_top fs top ((huniq _).mpr rfl)
  | cons r rs ih =>
      have hne : (("package.json") :: r :: (rs ++ top)) ≠ (("package.json") :: top) := by
        intro he
        have hlen := congrArg List.length he
        simp [List.length_append] at hlen
        omega
      have hf : fs (("package.json") :: r :: (rs ++ top)) = false := by
        by_cases hb : fs (("package.json") :: r :: (rs ++ top)) = true
        · exact absurd ((huniq _).mp hb) hne
        · simpa using hb
      show find_package_json fs (r :: (rs ++ top)) = _
      simp [find_package_json, hf, ih]

lemma find_none_of_all_absent (fs : List String → Bool) (start : List String)
    (h : ∀ d ∈ ancestors start, fs (("package.json") :: d) = false) :
    find_package_json fs start = none := by
  rw [find_eq_ancestors_find?]
  have hnone : List.find? (fun d => fs (("package.json") :: d)) (ancestors start) = none := by
    rw [List.find?_eq_none]
    intro d hd
    simp [h d hd]
  rw [hnone]
  rfl

lemma replace_split_eq (value : List Char) :
    pySplitChar '-' (value.map underscore_to_hyphen) = splitOnDelimiterSet value := by
  induction value with
  | nil => rfl
  | cons c cs ih =>
      simp only [List.map_cons]
      by_cases h : c = '-' ∨ c = '_'
      · have hu : underscore_to_hyphen c = '-' := by
          rcases h with h | h <;> simp [underscore_to_hyphen, h]
        simp [pySplitChar, splitOnDelimiterSet, hu, h, ih]
      · have hc : ¬ c = '-' := fun hh => h (Or.inl hh)
        have hund : ¬ c = '_' := fun hh => h (Or.inr hh)
        have hu : underscore_to_hyphen c = c := by simp [underscore_to_hyphen, hund]
        simp [pySplitChar, splitOnDelimiterSet, hu, hc, hund, ih]

/-! ## Claim theorems -/

/-- Claim C4: the name transform splits its input on the delimiter set
consisting of hyphen and underscore (the source's replace-then-split is
extensionally that one-pass split), applies the per-segment
capitalization to every segment, and concatenates the results with no
separator; empty segments map to the empty string and so contribute
nothing; `"my-cool_tool"` maps to `"MyCoolTool"`, `"already"` to
`"Already"`, and `"a--b"` to `"AB"`. -/
theorem c4_name_transform_split_capitalize_concat :
    (∀ value : List Char,
        to_pascal_case_chars value
          = (List.map pyCapitalize (splitOnDelimiterSet value)).flatten)
    ∧ to_pascal_case ("my-cool_tool") = ("MyCoolTool")
    ∧ to_pascal_case ("already") = ("Already")
    ∧ to_pascal_case ("a--b") = ("AB")
    ∧ pyCapitalize [] = [] := by
  refine ⟨?_, by decide, by decide, by decide, rfl⟩
  intro value
  unfold to_pascal_case_chars
  rw [replace_split_eq]

/-- Claim C10: the per-segment transform is Python `str.capitalize`,
which uppercases the first character and lowercases every later one, so
`"ABC"` maps to `"Abc"` and `"myHTTPTool"` to `"Myhttptool"`; in
particular the canonical name can differ from a raw name that contains
no delimiter at all. -/
theorem c10_capitalize_lowercases_rest :
    to_pascal_case ("ABC") = ("Abc")
    ∧ to_pascal_case ("myHTTPTool") = ("Myhttptool")
    ∧ (∀ c : Char, ∀ cs : List Char,
        pyCapitalize (c :: cs) = c.toUpper :: cs.map Char.toLower)
    ∧ to_pascal_case ("ABC") ≠ ("ABC")
    ∧ (("ABC").data.all (fun c => decide (c ≠ '-') && decide (c ≠ '_'))) = true :=
  ⟨by decide, by decide, fun c cs => rfl, by decide, by decide⟩

/-- Claim C3: the post-compile patch step is idempotent; an absent
compiled entry point (`none`) is a silent no-op; content not starting
with the shebang gets it prepended; content already starting with it is
left untouched. -/
theorem c3_patch_step_idempotent :
    (∀ file : Option (List Char), patchStep (patchStep file) = patchStep file)
    ∧ patchStep none = none
    ∧ (∀ content : List Char, shebang.isPrefixOf content = false →
        patchStep (some content) = some (shebang ++ content))
    ∧ (∀ content : List Char, shebang.isPrefixOf content = true →
        patchStep (some content) = some content) := by
  refine ⟨?_, rfl, ?_, ?_⟩
  · intro file
    cases file with
    | none => rfl
    | some content =>
        show some (patchContent (patchContent content)) = some (patchContent content)
        unfold patchContent
        by_cases h : shebang.isPrefixOf content
        · simp [h]
        · simp [h, isPrefixOf_append_self]
  · intro content h
    simp [patchStep, patchContent, h]
  · intro content h
    simp [patchStep, patchContent, h]

/-- Witness for C3 at a concrete compiled file content. -/
theorem c3_patch_step_idempotent_witness :
    patchStep (some (("console.log(1);\n").data))
        = some (shebang ++ ("console.log(1);\n").data)
    ∧ patchStep (some (shebang ++ ("console.log(1);\n").data))
        = some (shebang ++ ("console.log(1);\n").data) :=
  ⟨c3_patch_step_idempotent.2.2.1 (("console.log(1);\n").data) (by decide),
   c3_patch_step_idempotent.2.2.2 (shebang ++ (("console.log(1);\n").data)) (by decide)⟩

/-- Claim C5: the upward search visits the starting directory and then
each ancestor in order and returns the first directory whose manifest
candidate exists (never a descendant or sibling, since only members of
the ancestor chain are examined); when no ancestor up to the root has
the manifest it returns `none` as a value; and in a tree whose only
manifest sits in the directory `top`, searching from any descendant
`rest ++ top` yields `top`'s manifest. -/
theorem c5_upward_search_nearest (top rest : List String) (fs : List String → Bool)
    (huniq : ∀ p, fs p = true ↔ p = ("package.json") :: top) :
    (∀ g : List String → Bool, ∀ start : List String,
        find_package_json g start
          = (List.find? (fun d => g (("package.json") :: d)) (ancestors start)).map
              (fun d => ("package.json") :: d))
    ∧ find_package_json fs (rest ++ top) = some (("package.json") :: top)
    ∧ (∀ g : List String → Bool, ∀ start : List String,
        (∀ d ∈ ancestors start, g (("package.json") :: d) = false) →
          find_package_json g start = none) :=
  ⟨fun g start => find_eq_ancestors_find? g start,
   find_descendant top rest fs huniq,
   fun g start h => find_none_of_all_absent g start h⟩

/-- Witness for C5: a manifest only at `proj`, search from `proj/src`. -/
theorem c5_upward_search_nearest_witness :
    find_package_json (fun p => decide (p = [("package.json"), ("proj")]))
        ([("src")] ++ [("proj")])
      = some ([("package.json"), ("proj")])
    ∧ find_package_json (fun _ => false) [("elsewhere")] = none := by
  constructor
  · exact (c5_upward_search_nearest ([("proj")]) ([("src")])
      (fun p => decide (p = [("package.json"), ("proj")]))
      (fun p => by simp)).2.1
  · exact (c5_upward_search_nearest ([("proj")]) ([("src")])
      (fun p => decide (p = [("package.json"), ("proj")]))
      (fun p => by simp)).2.2 (fun _ => false) [("elsewhere")] (fun d _ => rfl)

/-- Claim C8: the upward search terminates for every starting
directory: the literal loop, run with a step budget of one more than
the directory's depth, returns (it never exhausts the budget) with
exactly the search's value; and the loop's stopping guard — the parent
of the current directory equals the current directory — holds exactly
at the filesystem root. -/
theorem c8_search_terminates :
    (∀ fs : List String → Bool, ∀ start : List String,
        find_loop fs (start.length + 1) start = some (find_package_json fs start))
    ∧ (∀ current : List String, current.tail = current ↔ current = []) := by
  constructor
  · intro fs start
    induction start with
    | nil =>
        by_cases h : fs (("package.json") :: [])
        · simp [find_loop, find_package_json, h]
        · simp [find_loop, find_package_json, h]
    | cons d rest ih =>
        by_cases h : fs (("package.json") :: d :: rest)
        · simp [find_loop, find_package_json, h]
        · simpa [find_loop, find_package_json, h] using ih
  · exact tail_eq_self_iff_nil

/-- Claim C2: given that the upward search finds a manifest, the build
fails with the InvalidProject error exactly when the disable-flag is
unset and the manifest's dependency keys lack `mcp-framework`; and
whenever the disable-flag is set the build reaches the compile and
patch steps (the `Except.ok` branch) regardless of the dependency
keys. -/
theorem c2_validation_gate (fs : List String → Bool) (deps : List String)
    (env : Option String) (idx : Option (List Char)) (cwd : List String)
    (hfound : find_package_json fs cwd ≠ none) :
    (build_framework fs deps env idx cwd = .error invalid_project_msg
        ↔ (skip_validation env = false ∧ deps.contains ("mcp-framework") = false))
    ∧ (skip_validation env = true →
        build_framework fs deps env idx cwd = .ok (patchStep idx)) := by
  cases hm : find_package_json fs cwd with
  | none => exact absurd hm hfound
  | some p =>
      have heq : build_framework fs deps env idx cwd
          = (if skip_validation env then Except.ok (patchStep idx)
             else if deps.contains ("mcp-framework") then Except.ok (patchStep idx)
             else Except.error invalid_project_msg) := by
        unfold build_framework
        rw [hm]
      rw [heq]
      constructor
      · by_cases hs : skip_validation env
        · simp [hs]
        · by_cases hd : deps.contains ("mcp-framework")
          · simp [hs, hd]
          · simp [hs, hd]
      · intro hs
        simp [hs]

/-- Witness for C2: flag value `"1"` does not disable validation, and
an empty dependency key set makes the build fail as InvalidProject. -/
theorem c2_validation_gate_witness :
    build_framework (fun p => decide (p = [("package.json")])) [] (some ("1")) none []
      = .error invalid_project_msg := by
  exact ((c2_validation_gate (fun p => decide (p = [("package.json")])) []
      (some ("1")) none [] (by decide)).1).mpr (by constructor <;> rfl)

/-- Claim C9: validation is skipped exactly when the environment
variable holds the string `"true"`; `"TRUE"`, `"1"`, `"yes"` and an
unset variable all leave validation enabled, as witnessed on a
framework-less manifest where the build succeeds exactly for the value
`"true"`. -/
theorem c9_skip_validation_exact_true (fs : List String → Bool) (deps : List String)
    (idx : Option (List Char)) (cwd : List String)
    (hfound : find_package_json fs cwd ≠ none)
    (hdeps : deps.contains ("mcp-framework") = false) :
    (∀ env : Option String, skip_validation env = true ↔ env = some ("true"))
    ∧ skip_validation (some ("TRUE")) = false
    ∧ skip_validation (some ("1")) = false
    ∧ skip_validation (some ("yes")) = false
    ∧ skip_validation none = false
    ∧ (∀ env : Option String,
        build_framework fs deps env idx cwd = .ok (patchStep idx) ↔ env = some ("true")) := by
  have hsv : ∀ env : Option String, skip_validation env = true ↔ env = some ("true") := by
    intro env
    simp [skip_validation]
  refine ⟨hsv, by decide, by decide, by decide, by decide, ?_⟩
  intro env
  cases hm : find_package_json fs cwd with
  | none => exact absurd hm hfound
  | some p =>
      have heq : build_framework fs deps env idx cwd
          = (if skip_validation env then Except.ok (patchStep idx)
             else if deps.contains ("mcp-framework") then Except.ok (patchStep idx)
             else Except.error invalid_project_msg) := by
        unfold build_framework
        rw [hm]
      rw [heq, hdeps]
      by_cases hs : skip_validation env
      · simpa [hs] using (hsv env).mp hs
      · have hne : ¬ env = some ("true") := fun he => hs ((hsv env).mpr he)
        simp [hs, hne]

/-- Witness for C9: with the exact value `"true"` the gate is disabled
and the build reaches the compile and patch steps. -/
theorem c9_skip_validation_exact_true_witness :
    build_framework (fun p => decide (p = [("package.json")])) [] (some ("true")) none []
      = .ok (patchStep none) := by
  exact ((c9_skip_validation_exact_true (fun p => decide (p = [("package.json")])) []
      none [] (by decide) rfl).2.2.2.2.2 (some ("true"))).mpr rfl

/-- Claim C6: `create("demo", http=True, cors=True, port=9090,
install=False)` yields a manifest whose script set is exactly
build/watch/start, a runtime dependency set with the single pinned
framework entry, an entry point whose transport options block holds
port 9090 with the wildcard CORS directive nested inside it, and the
only external process invoked is the version-control initializer (no
installer, no compiler). -/
theorem c6_create_demo_end_to_end :
    (create_project ("demo") true true 9090 false true).map
        (fun r => r.package_json.scripts.map Prod.fst)
      = .ok [("build"), ("watch"), ("start")]
    ∧ (create_project ("demo") true true 9090 false true).map
        (fun r => r.package_json.dependencies)
      = .ok [(("mcp-framework"), ("^0.2.2"))]
    ∧ (create_project ("demo") true true 9090 false true).map
        (fun r => r.index_ts)
      = .ok demo_index_ts
    ∧ occursIn (("port: 9090").data) demo_index_ts.data = true
    ∧ occursIn (("options: \x7b\n      port: 9090,\n      cors: \x7b\n        allowOrigin: \x27*\x27\n      \x7d\n    \x7d").data) demo_index_ts.data = true
    ∧ (create_project ("demo") true true 9090 false true).map
        (fun r => r.commands)
      = .ok [[("git"), ("init")]] := by
  refine ⟨rfl, rfl, rfl, by decide, by decide, rfl⟩

/-- Claim C1 (code bug): the file name is derived as
`canonicalName ++ capitalize(kind) ++ ".ts"` and the per-kind target
directory is computed — but under the current working directory's
`src`, not under the source root of the project located by the upward
search (last two conjuncts: from a subdirectory `sub` the manifest is
found at the root, yet the target differs from the root's `src/tools`);
and the operation itself never writes the file: building the template
dict raises AttributeError (the unescaped `input.message` interpolation
of cli.py line 181), so component generation always fails. -/
theorem c1_component_generation_crashes :
    component_file_name ("weather-lookup") ComponentKind.tool = ("WeatherLookupTool.ts")
    ∧ dir_map [] ComponentKind.tool = [("tools"), ("src")]
    ∧ add_component demo_project_files [] ("weather-lookup") ComponentKind.tool
        = .error attribute_error_msg
    ∧ find_package_json (fun p => (demo_project_files p).isSome) [("sub")]
        = some [("package.json")]
    ∧ dir_map [("sub")] ComponentKind.tool ≠ [("tools"), ("src")] := by
  refine ⟨by decide, rfl, rfl, by decide, by decide⟩

/-- Claim C7 (code bug): with a hand-edited file already present at
exactly the target path `src/resources/StatusResource.ts`, component
generation does not overwrite it with the rendered stub — it fails with
AttributeError before any write (eager evaluation of the template dict,
cli.py lines 180-184), leaving the prior content in place. -/
theorem c7_overwrite_never_happens :
    add_component demo_project_files_with_existing [] ("status") ComponentKind.resource
      = .error attribute_error_msg
    ∧ demo_project_files_with_existing [("StatusResource.ts"), ("resources"), ("src")]
        = some ("hand edited content")
    ∧ component_file_name ("status") ComponentKind.resource = ("StatusResource.ts") := by
  refine ⟨rfl, rfl, by decide⟩
